import Mathlib

/-!
# nsw_transport: the live bus map (`frontend/src/App.js`)

A shallow embedding of the data-refresh logic of the `App` component:

* the parse step of `fetchBusData` (the `map`/`filter` over `data.entity`),
* one fetch cycle as a transition on the three state cells
  `buses`, `error`, `userLocation`,
* the geolocation callbacks and the polling effect as step functions,
* `getColorForRoute` (integer hash, hue, colour token),
* `getDistanceFromLatLonInKm` read over the real numbers, and the render
  pass over `buses`.

JavaScript numbers that hold integers are embedded as `Int`, with the rounding
of doubles past `2 ^ 53` made explicit (`roundToDouble`); feed coordinates are
rationals. The render pass is modelled on the buses as stored, with the
floating-point evaluation of the distance left as a parameter (`Engine`); the
trigonometry of the distance is also read over the real numbers, for the
statements that are about that reading.
-/

namespace NswTransport

set_option maxRecDepth 100000

/-! ## JavaScript values of the feed body -/

/-- The values `response.json()` can produce, plus `undefined`, which is what
reading an absent property gives. -/
inductive JsVal where
  | undefined : JsVal
  | null : JsVal
  | bool (b : Bool) : JsVal
  | num (q : ℚ) : JsVal
  | str (s : String) : JsVal
  | arr (items : List JsVal) : JsVal
  | obj (fields : List (String × JsVal)) : JsVal

/-- `Boolean(v)`: the truthiness used by `&&`, by `if (...)` and by
`filter(Boolean)`. -/
def truthy : JsVal → Bool
  | .undefined => false
  | .null => false
  | .bool b => b
  | .num q => decide (q ≠ 0)
  | .str s => decide (s ≠ "")
  | .arr _ => true
  | .obj _ => true

/-- Own-property lookup in an object literal. -/
def lookupField (key : String) : List (String × JsVal) → JsVal
  | [] => .undefined
  | (k, v) :: rest => if k = key then v else lookupField key rest

/-- The message of the `TypeError` raised by reading property `key` of
`undefined` or `null` (wording of V8). -/
def typeErrorMessage (base key : String) : String :=
  "Cannot read properties of " ++ base ++ " (reading '" ++ key ++ "')"

/-- Property read `v.key`, for the keys the program reads (`entity`, `vehicle`,
`position`, `trip`, `id`, `latitude`, `longitude`, `routeId`): it raises a
`TypeError` on `undefined` and `null`, looks the key up in an object, and
gives `undefined` on every other value (none of these keys is a built-in
property of a boolean, number, string or array). The error case carries the
message of the raised error. -/
def getProp (v : JsVal) (key : String) : Except String JsVal :=
  match v with
  | .undefined => .error (typeErrorMessage "undefined" key)
  | .null => .error (typeErrorMessage "null" key)
  | .obj fields => .ok (lookupField key fields)
  | _ => .ok .undefined

/-- One element of `buses`: the object literal built at App.js:46-51. Its
fields hold whatever the feed entity held at those paths. -/
structure Bus where
  id : JsVal
  latitude : JsVal
  longitude : JsVal
  routeId : JsVal

/-- The callback of `data.entity.map` (App.js:43-54). `none` is the `null` it
returns for an entity that fails the guard
`entity.vehicle && entity.vehicle.position`; the error case is an exception
raised while evaluating the callback. -/
def parseEntity (entity : JsVal) : Except String (Option Bus) := do
  let vehicle ← getProp entity "vehicle"
  let guardVal ← if truthy vehicle then getProp vehicle "position" else pure vehicle
  if truthy guardVal then
    let id ← getProp entity "id"
    let position ← getProp vehicle "position"
    let latitude ← getProp position "latitude"
    let longitude ← getProp position "longitude"
    let trip ← getProp vehicle "trip"
    let routeId ← getProp trip "routeId"
    pure (some { id := id, latitude := latitude, longitude := longitude, routeId := routeId })
  else
    pure none

/-- The call `data.entity.map(callback)`: the callback runs on the elements from
left to right and the first exception aborts the whole call. -/
def mapEntities : List JsVal → Except String (List (Option Bus))
  | [] => pure []
  | entity :: rest => do
    let r ← parseEntity entity
    let rs ← mapEntities rest
    pure (r :: rs)

/-- The value of `parsedBuses` (App.js:43-54): `map` followed by
`filter(Boolean)`, which drops the `null`s and keeps every object. -/
def parsedBuses (entities : List JsVal) : Except String (List Bus) := do
  let mapped ← mapEntities entities
  pure (mapped.filterMap id)

/-! ## The state cells and one fetch cycle -/

/-- The three `useState` cells of `App`. `error` is `null` (`none`) or a
message; `userLocation` is `null` or a `[latitude, longitude]` pair. -/
structure AppState where
  buses : List Bus
  error : Option String
  userLocation : Option (ℚ × ℚ)

/-- The initial values of the cells (App.js:16-18). -/
def AppState.init : AppState := { buses := [], error := none, userLocation := none }

/-- What the network gives one call of `fetchBusData`: either `fetch` rejects
with an error carrying `message`, or it resolves to a response with its `ok`
flag, its `status`, and the outcome of `response.json()`. -/
inductive FetchResult where
  | rejected (message : String) : FetchResult
  | response (ok : Bool) (status : Nat) (json : Except String JsVal) : FetchResult

/-- The body of the `try` block of `fetchBusData` (App.js:38-54): the value
passed to `setBuses`, or the message of the error that reaches `catch`. -/
def tryBlock : FetchResult → Except String (List Bus)
  | .rejected message => .error message
  | .response ok status json =>
    if !ok then
      .error ("HTTP error! status: " ++ toString status)
    else do
      let data ← json
      let entity ← getProp data "entity"
      match entity with
      | .arr items => parsedBuses items
      | .undefined => .error (typeErrorMessage "undefined" "map")
      | .null => .error (typeErrorMessage "null" "map")
      | _ => .error "data.entity.map is not a function"

/-- One run of `fetchBusData` (App.js:36-61) as a transition of the state
cells: `setBuses(parsedBuses)` on success, `setError(error.message)` in
`catch`. -/
def fetchBusData (st : AppState) (r : FetchResult) : AppState :=
  match tryBlock r with
  | .ok bs => { st with buses := bs }
  | .error message => { st with error := some message }

/-- A sequence of fetch cycles, oldest first. -/
def fetchCycles (st : AppState) (rs : List FetchResult) : AppState :=
  rs.foldl fetchBusData st

/-! ## The geolocation effect -/

/-- The fallback position (App.js:20). -/
def sydneyPosition : ℚ × ℚ := (-33.8688, 151.2093)

/-- A callback delivered by `navigator.geolocation.getCurrentPosition`: the
success callback with `position.coords`, or the error callback. -/
inductive GeoCallback where
  | success (latitude longitude : ℚ) : GeoCallback
  | failure : GeoCallback

/-- The two callbacks of the geolocation effect (App.js:25-31): each calls
`setUserLocation` unconditionally. -/
def onGeoCallback (st : AppState) : GeoCallback → AppState
  | .success latitude longitude => { st with userLocation := some (latitude, longitude) }
  | .failure => { st with userLocation := some sydneyPosition }

/-- A sequence of geolocation callbacks, oldest first. -/
def geoCallbacks (st : AppState) (cs : List GeoCallback) : AppState :=
  cs.foldl onGeoCallback st

/-! ## The polling effect -/

/-- The state of the polling effect: the cells, whether the interval created by
`setInterval` is still armed, and how many calls of `fetchBusData` are
waiting for the network. -/
structure Poller where
  app : AppState
  timerArmed : Bool
  inFlight : Nat

/-- The events of the polling effect (App.js:35-67). -/
inductive PollEvent where
  | start : PollEvent
  | tick : PollEvent
  | resolve (r : FetchResult) : PollEvent
  | stop : PollEvent

/-- One step of the polling effect. `start` is the effect body: it calls
`fetchBusData()` and arms the interval. `tick` is the interval firing: it calls
`fetchBusData()` when the interval is armed. `resolve r` is the network
answering an outstanding call with `r`: the rest of `fetchBusData` runs.
`stop` is the cleanup `clearInterval(interval)`. -/
def pollStep (p : Poller) : PollEvent → Poller
  | .start => { p with timerArmed := true, inFlight := p.inFlight + 1 }
  | .tick => if p.timerArmed then { p with inFlight := p.inFlight + 1 } else p
  | .resolve r =>
    match p.inFlight with
    | 0 => p
    | n + 1 => { p with app := fetchBusData p.app r, inFlight := n }
  | .stop => { p with timerArmed := false }

/-- A run of the polling effect, oldest event first. -/
def pollRun (p : Poller) (es : List PollEvent) : Poller :=
  es.foldl pollStep p

/-- The poller before the effect has run. -/
def Poller.init (st : AppState) : Poller := { app := st, timerArmed := false, inFlight := 0 }

/-! ## `getColorForRoute` -/

/-- The code units `charCodeAt` reads: a character outside the basic plane is a
surrogate pair. -/
def charCodes (s : String) : List Nat :=
  s.toList.flatMap fun c =>
    if c.toNat < 65536 then [c.toNat]
    else [55296 + (c.toNat - 65536) / 1024, 56320 + (c.toNat - 65536) % 1024]

/-- The conversion `ToInt32`: reduction modulo `2 ^ 32` into `[-2 ^ 31, 2 ^ 31)`. -/
def toInt32 (x : Int) : Int :=
  let m := x % 4294967296
  if 2147483648 ≤ m then m - 4294967296 else m

/-- The operator `x << k`: the left operand is converted by `ToInt32`, shifted by
`k mod 32` bits, and the result is again a 32-bit signed integer. -/
def shiftLeft (x : Int) (k : Nat) : Int :=
  toInt32 (toInt32 x * 2 ^ (k % 32))

/-- The exponent `floor (log2 n)` of `n ≥ 1`, by at most `fuel` halvings
(`log2Fuel_spec`). -/
def log2Fuel : Nat → Nat → Nat
  | 0, _ => 0
  | fuel + 1, n => if n < 2 then 0 else log2Fuel fuel (n / 2) + 1

/-- The double nearest to an integer `x`, ties to the even significand: what `-`
and `+` of two integer-valued numbers store when their exact result is `x`.
Integers up to `2 ^ 53` in magnitude are doubles; beyond, with
`2 ^ e ≤ |x| < 2 ^ (e + 1)`, the doubles are the multiples of `2 ^ (e - 52)`.
(No hash of a string reaches the overflow threshold `2 ^ 1024`.) -/
def roundToDouble (x : Int) : Int :=
  let n := x.natAbs
  if n ≤ 9007199254740992 then x
  else
    let ulp := 2 ^ (log2Fuel n n - 52)
    let q := n / ulp
    let r := n % ulp
    let m :=
      if 2 * r < ulp then q
      else if ulp < 2 * r then q + 1
      else if q % 2 = 0 then q else q + 1
    Int.sign x * ((m * ulp : Nat) : Int)

/-- The loop body `hash = routeId.charCodeAt(i) + ((hash << 5) - hash)`
(App.js:84). Only `<<` works on 32 bits; `-` and `+` are the arithmetic of
doubles, each rounding its exact result. -/
def hashStep (hash : Int) (code : Nat) : Int :=
  roundToDouble ((code : Int) + roundToDouble (shiftLeft hash 5 - hash))

/-- The value of `hash` when the loop of `getColorForRoute` ends (App.js:82-85),
on the code units of `routeId`. -/
def hashLoop (codes : List Nat) : Int :=
  codes.foldl hashStep 0

/-- The operator `%` of JavaScript on integers: the remainder takes the sign of
the dividend. -/
def jsRem (a b : Int) : Int := Int.tmod a b

/-- The hue `hash % 360` printed into the token (App.js:86). -/
def hueOf (routeId : String) : Int :=
  jsRem (hashLoop (charCodes routeId)) 360

/-- The function `getColorForRoute` (App.js:81-87). -/
def getColorForRoute (routeId : String) : String :=
  "hsl(" ++ toString (hueOf routeId) ++ ", 100%, 50%)"

/-- One step of the reference algorithm: `code + ((w << 5) - w)` with the
product and the sum both reduced by `toInt32`. -/
def wrapStep (w : Int) (code : Nat) : Int :=
  toInt32 ((code : Int) + (toInt32 (w * 32) - w))

/-- The hash of the reference algorithm: 32-bit signed wraparound after every
operation, `W_0 = 0` and `W_(i+1) = toInt32 (c_i + (toInt32 (W_i * 32) - W_i))`. -/
def wrapHash (codes : List Nat) : Int :=
  codes.foldl wrapStep 0

/-! ## `getDistanceFromLatLonInKm` and the render pass -/

/-- `Math.atan2(y, x)` over the reals: the angle of the point `(x, y)`, in
`(-π, π]`, and `0` at the origin. -/
noncomputable def atan2 (y x : ℝ) : ℝ := Complex.arg ⟨x, y⟩

/-- The intermediate value `a` of `getDistanceFromLatLonInKm` (App.js:71-76). -/
noncomputable def haversineA (lat1 lon1 lat2 lon2 : ℝ) : ℝ :=
  let dLat := (lat2 - lat1) * Real.pi / 180
  let dLon := (lon2 - lon1) * Real.pi / 180
  Real.sin (dLat / 2) * Real.sin (dLat / 2) +
    Real.cos (lat1 * Real.pi / 180) * Real.cos (lat2 * Real.pi / 180) *
      Real.sin (dLon / 2) * Real.sin (dLon / 2)

/-- The function `getDistanceFromLatLonInKm` (App.js:69-79) over the real
numbers. `Real.sqrt` is the square root on the operands that occur: for
latitudes in `[-90, 90]` both `a` and `1 - a` are nonnegative
(`haversineA_nonneg`, `haversineA_le_one`). -/
noncomputable def getDistanceFromLatLonInKm (lat1 lon1 lat2 lon2 : ℝ) : ℝ :=
  let R : ℝ := 6371
  let a := haversineA lat1 lon1 lat2 lon2
  let c := 2 * atan2 (Real.sqrt a) (Real.sqrt (1 - a))
  R * c

/-- An element of `buses` whose fields have the types of the feed's data
model: numeric coordinates and string identifiers. The real-number reading of
the render pass (`renderBuses`) is stated on such buses; the render pass on the
buses as stored is `renderPass`. -/
structure VehicleObservation where
  id : String
  latitude : ℚ
  longitude : ℚ
  routeId : String

/-- Reads a parsed bus as a `VehicleObservation` when its fields have those
types (the identity on the JavaScript side). -/
def Bus.observation? : Bus → Option VehicleObservation
  | { id := .str id, latitude := .num latitude, longitude := .num longitude,
      routeId := .str routeId } =>
    some { id := id, latitude := latitude, longitude := longitude, routeId := routeId }
  | _ => none

/-- What the callback of `buses.map` computes for one typed bus when the
distance is read over the real numbers: `distance` is a real number or the
sentinel `Infinity` (`⊤`). -/
structure AnnotatedVehicle where
  bus : VehicleObservation
  distance : EReal
  isNearby : Bool
  color : String

open Classical in
/-- The callback of `buses.map` in the render of `App` (App.js:117-125) on a
typed bus, with `getDistanceFromLatLonInKm` and the comparison `distance <= 5`
read over the real numbers. -/
noncomputable def annotate (userLocation : Option (ℚ × ℚ)) (bus : VehicleObservation) :
    AnnotatedVehicle :=
  let distance : EReal :=
    match userLocation with
    | some loc =>
      ((getDistanceFromLatLonInKm loc.1 loc.2 bus.latitude bus.longitude : ℝ) : EReal)
    | none => ⊤
  let isNearby := decide (distance ≤ ((5 : ℝ) : EReal))
  let color := getColorForRoute bus.routeId
  { bus := bus, distance := distance, isNearby := isNearby, color := color }

/-- The render pass `buses.map(...)` (App.js:117-136) on typed buses, read over
the real numbers. -/
noncomputable def renderBuses (userLocation : Option (ℚ × ℚ))
    (buses : List VehicleObservation) : List AnnotatedVehicle :=
  buses.map (annotate userLocation)

/-! ## The render pass on the buses as stored -/

/-- The values of JavaScript numbers: a finite double, given by the rational it
denotes, the two infinities, and `NaN`. -/
inductive JsNum where
  | finite (q : ℚ) : JsNum
  | infinity : JsNum
  | negInfinity : JsNum
  | nan : JsNum

/-- The comparison `a <= b` of two numbers: false as soon as one is `NaN`. -/
def JsNum.le : JsNum → JsNum → Bool
  | .nan, _ => false
  | _, .nan => false
  | .negInfinity, _ => true
  | _, .infinity => true
  | .infinity, _ => false
  | _, .negInfinity => false
  | .finite x, .finite y => decide (x ≤ y)

/-- The comparison `a < b` of two numbers: false as soon as one is `NaN`. -/
def JsNum.lt : JsNum → JsNum → Bool
  | .nan, _ => false
  | _, .nan => false
  | .infinity, _ => false
  | _, .negInfinity => false
  | .negInfinity, _ => true
  | _, .infinity => true
  | .finite x, .finite y => decide (x < y)

/-- The parts of the JavaScript engine the model leaves open; every statement
about the render pass holds for whatever they are.

* `distance lat1 lon1 lat2 lon2` is the double that the body of
  `getDistanceFromLatLonInKm` (App.js:70-78) computes from four numbers, in
  floating point.
* `toNumberOther v` is the conversion `ToNumber` of a string, an array or an
  object: a number, or the `TypeError` of an object that cannot be converted
  to a primitive. -/
structure Engine where
  distance : JsNum → JsNum → JsNum → JsNum → JsNum
  toNumberOther : JsVal → Except String JsNum

/-- The conversion `ToNumber` an arithmetic or relational operator applies to an
operand. -/
def toNumber (engine : Engine) : JsVal → Except String JsNum
  | .undefined => .ok .nan
  | .null => .ok (.finite 0)
  | .bool b => .ok (.finite (if b then 1 else 0))
  | .num q => .ok (.finite q)
  | v => engine.toNumberOther v

/-- The call `getDistanceFromLatLonInKm(userLocation[0], userLocation[1],
bus.latitude, bus.longitude)` (App.js:120): `lat2` is converted first, in
`lat2 - lat1`, then `lon2`, in `lon2 - lon1`; the viewer's coordinates are
numbers. -/
def callDistance (engine : Engine) (lat1 lon1 : ℚ) (lat2 lon2 : JsVal) : Except String JsNum := do
  let lat2Num ← toNumber engine lat2
  let lon2Num ← toNumber engine lon2
  pure (engine.distance (.finite lat1) (.finite lon1) lat2Num lon2Num)

/-- The call `getColorForRoute(bus.routeId)` (App.js:124) on whatever `routeId`
holds. On a string it is `getColorForRoute`. Reading `length` of `undefined`
or `null` raises a `TypeError`. A boolean or a number has no `length`, so the
loop condition `0 < undefined` fails, the loop body never runs and the result
is that of the empty string; likewise for an empty array and for an object
whose `length` is not positive. When the loop is entered on an array or an
object, `routeId.charCodeAt` is not a function and calling it raises a
`TypeError`. -/
def getColorForRouteVal (engine : Engine) : JsVal → Except String String
  | .str routeId => .ok (getColorForRoute routeId)
  | .undefined => .error (typeErrorMessage "undefined" "length")
  | .null => .error (typeErrorMessage "null" "length")
  | .bool _ => .ok (getColorForRoute "")
  | .num _ => .ok (getColorForRoute "")
  | .arr items =>
    if items.length = 0 then .ok (getColorForRoute "")
    else .error "routeId.charCodeAt is not a function"
  | .obj fields => do
    let len ← toNumber engine (lookupField "length" fields)
    if JsNum.lt (.finite 0) len then .error "routeId.charCodeAt is not a function"
    else pure (getColorForRoute "")

/-- What the callback of `buses.map` computes for one bus (App.js:119-124). -/
structure BusMarker where
  bus : Bus
  distance : JsNum
  isNearby : Bool
  color : String

/-- The callback of `buses.map` in the render of `App` (App.js:117-135):
`distance`, then `isNearby = distance <= 5`, then `color`; the error case is an
exception raised on the way. -/
def renderBus (engine : Engine) (userLocation : Option (ℚ × ℚ)) (bus : Bus) :
    Except String BusMarker := do
  let distance ←
    match userLocation with
    | some loc => callDistance engine loc.1 loc.2 bus.latitude bus.longitude
    | none => pure JsNum.infinity
  let isNearby := JsNum.le distance (.finite 5)
  let color ← getColorForRouteVal engine bus.routeId
  pure { bus := bus, distance := distance, isNearby := isNearby, color := color }

/-- The render pass `buses.map(...)` (App.js:117-136) on the buses as stored: the
callback runs on the buses from left to right and the first exception aborts
the render. -/
def renderPass (engine : Engine) (userLocation : Option (ℚ × ℚ)) :
    List Bus → Except String (List BusMarker)
  | [] => pure []
  | bus :: rest => do
    let marker ← renderBus engine userLocation bus
    let markers ← renderPass engine userLocation rest
    pure (marker :: markers)

/-! ## Concrete feed bodies -/

/-- The entity `{id:"1",vehicle:{position:{latitude:-33.87,longitude:151.21},trip:{routeId:"M20"}}}`. -/
def entityM20 : JsVal :=
  .obj [("id", .str "1"),
    ("vehicle", .obj [
      ("position", .obj [("latitude", .num (-33.87)), ("longitude", .num 151.21)]),
      ("trip", .obj [("routeId", .str "M20")])])]

/-- The entity `{id:"2"}`: no `vehicle`. -/
def entityNoVehicle : JsVal := .obj [("id", .str "2")]

/-- The entity `{id:"3",vehicle:{position:{latitude:-33.9,longitude:151.2}}}`: a
position and no `trip`. -/
def entityNoTrip : JsVal :=
  .obj [("id", .str "3"),
    ("vehicle", .obj [
      ("position", .obj [("latitude", .num (-33.9)), ("longitude", .num 151.2)])])]

/-- The entity `{id:"4",vehicle:{position:{latitude:-33.9,longitude:151.2},trip:{}}}`:
a `trip` without `routeId`. -/
def entityNoRouteId : JsVal :=
  .obj [("id", .str "4"),
    ("vehicle", .obj [
      ("position", .obj [("latitude", .num (-33.9)), ("longitude", .num 151.2)]),
      ("trip", .obj [])])]

/-- The bus parsed from `entityM20`. -/
def busM20 : Bus :=
  { id := .str "1", latitude := .num (-33.87), longitude := .num 151.21, routeId := .str "M20" }

/-- A successful response whose body is `{entity: entities}`. -/
def okResponse (entities : List JsVal) : FetchResult :=
  .response true 200 (.ok (.obj [("entity", .arr entities)]))

/-- The bus parsed from `entityNoRouteId`: its `routeId` is `undefined`. -/
def busNoRouteId : Bus :=
  { id := .str "4", latitude := .num (-33.9), longitude := .num 151.2, routeId := .undefined }

/-- The bus of `busM20` with its fields typed. -/
def obsM20 : VehicleObservation :=
  { id := "1", latitude := -33.87, longitude := 151.21, routeId := "M20" }

/-! ## The parse step and the fetch cycle -/

/-- C1, evaluated on the code. A list in which one entity lacks `vehicle` and
another has a position but no `trip`: the callback raises a `TypeError` on
`entity.vehicle.trip.routeId`, so the parse step yields no list at all, and the
fetch cycle ends in `catch` with `buses` not replaced and the message shown as
`error`. When the `trip` is there but has no `routeId`, the entity is kept,
with `routeId` `undefined`. -/
theorem parsedBuses_missing_trip :
    parsedBuses [entityM20, entityNoVehicle, entityNoTrip] =
        .error "Cannot read properties of undefined (reading 'routeId')" ∧
      fetchBusData AppState.init (okResponse [entityM20, entityNoVehicle, entityNoTrip]) =
        { buses := [], error := some "Cannot read properties of undefined (reading 'routeId')",
          userLocation := none } ∧
      parsedBuses [entityM20, entityNoVehicle, entityNoRouteId] =
        .ok [busM20, { id := .str "4", latitude := .num (-33.9), longitude := .num 151.2,
                       routeId := .undefined }] :=
  ⟨rfl, rfl, rfl⟩

/-- A run of fetch cycles never touches `userLocation`. -/
theorem fetchBusData_userLocation (st : AppState) (r : FetchResult) :
    (fetchBusData st r).userLocation = st.userLocation := by
  unfold fetchBusData
  cases tryBlock r <;> rfl

/-- C2: a fetch cycle whose response is not ok, with status `s`, keeps `buses`
and `userLocation` as they were and sets `error` to `HTTP error! status: s`;
the same holds for the snapshot left by any earlier run of cycles. -/
theorem fetchBusData_not_ok (st : AppState) (s : Nat) (json : Except String JsVal)
    (earlier : List FetchResult) :
    fetchBusData st (.response false s json) =
        { buses := st.buses, error := some ("HTTP error! status: " ++ toString s),
          userLocation := st.userLocation } ∧
      (fetchCycles st (earlier ++ [.response false s json])).buses =
        (fetchCycles st earlier).buses ∧
      (fetchCycles st (earlier ++ [.response false s json])).error =
        some ("HTTP error! status: " ++ toString s) := by
  refine ⟨rfl, ?_, ?_⟩ <;> simp only [fetchCycles, List.foldl_append, List.foldl_cons,
    List.foldl_nil] <;> rfl

/-- A fetch cycle leaves a message in `error` in place or replaces it by
another message: it never resets `error` to `null`. -/
theorem fetchBusData_error_isSome (st : AppState) (r : FetchResult)
    (h : st.error.isSome = true) : (fetchBusData st r).error.isSome = true := by
  unfold fetchBusData
  cases tryBlock r with
  | ok bs => simpa using h
  | error message => rfl

/-- The message stays through any run of cycles. -/
theorem fetchCycles_error_isSome (rs : List FetchResult) (st : AppState)
    (h : st.error.isSome = true) : (fetchCycles st rs).error.isSome = true := by
  induction rs generalizing st with
  | nil => simpa [fetchCycles] using h
  | cons r rest ih =>
    simpa [fetchCycles] using ih (fetchBusData st r) (fetchBusData_error_isSome st r h)

/-- C10: a successful cycle replaces `buses` by the parsed body and leaves
`error` (and `userLocation`) as it was; and once a failed cycle has set
`error`, it is still set, to some message, after every later run of cycles. -/
theorem fetchBusData_error_sticky (st : AppState) (r failed : FetchResult) (bs : List Bus)
    (message : String) (later : List FetchResult)
    (hok : tryBlock r = .ok bs) (hfail : tryBlock failed = .error message) :
    fetchBusData st r = { buses := bs, error := st.error, userLocation := st.userLocation } ∧
      (fetchBusData st failed).error = some message ∧
      (fetchCycles (fetchBusData st failed) later).error ≠ none := by
  have hset : (fetchBusData st failed).error = some message := by
    simp [fetchBusData, hfail]
  refine ⟨by simp [fetchBusData, hok], hset, ?_⟩
  have h := fetchCycles_error_isSome later (fetchBusData st failed) (by simp [hset])
  intro hnone
  simp [hnone] at h

/-- C10 at a concrete run: a 503 followed by a successful cycle. -/
theorem fetchBusData_error_sticky_witness :
    (fetchBusData AppState.init (okResponse [entityM20]) =
        { buses := [busM20], error := none, userLocation := none } ∧
      (fetchBusData AppState.init (.response false 503 (.error "no body"))).error =
        some "HTTP error! status: 503" ∧
      (fetchCycles (fetchBusData AppState.init (.response false 503 (.error "no body")))
        [okResponse [entityM20]]).error ≠ none) ∧
    fetchCycles AppState.init [.response false 503 (.error "no body"), okResponse [entityM20]] =
      { buses := [busM20], error := some "HTTP error! status: 503", userLocation := none } :=
  ⟨fetchBusData_error_sticky AppState.init (okResponse [entityM20])
      (.response false 503 (.error "no body")) [busM20] "HTTP error! status: 503"
      [okResponse [entityM20]] rfl rfl, rfl⟩

/-! ## The geolocation callbacks -/

/-- C7 fails on the code: a second callback overwrites the position the first
one committed. -/
theorem geoCallbacks_second_overwrites :
    (geoCallbacks AppState.init [.success 1 2]).userLocation = some (1, 2) ∧
      (geoCallbacks AppState.init [.success 1 2, .success 3 4]).userLocation = some (3, 4) ∧
      (geoCallbacks AppState.init [.success 1 2, .success 3 4]).userLocation ≠
        (geoCallbacks AppState.init [.success 1 2]).userLocation := by
  refine ⟨rfl, rfl, ?_⟩
  simp [geoCallbacks, onGeoCallback, AppState.init]

/-- C7 as amended: every callback commits its own value, whatever was committed
before. After a run of callbacks `userLocation` is what the last one alone
would set (its coordinates, or the Sydney fallback for an error), it is never
`null`, and `buses` and `error` are untouched. -/
theorem geoCallbacks_last_wins (st : AppState) (cs : List GeoCallback) (c : GeoCallback) :
    (geoCallbacks st (cs ++ [c])).userLocation = (onGeoCallback AppState.init c).userLocation ∧
      (geoCallbacks st (cs ++ [c])).userLocation ≠ none ∧
      (geoCallbacks st (cs ++ [c])).buses = st.buses ∧
      (geoCallbacks st (cs ++ [c])).error = st.error := by
  have hkeep : ∀ (l : List GeoCallback) (s : AppState),
      (geoCallbacks s l).buses = s.buses ∧ (geoCallbacks s l).error = s.error := by
    intro l
    induction l with
    | nil => intro s; exact ⟨rfl, rfl⟩
    | cons d rest ih =>
      intro s
      have h := ih (onGeoCallback s d)
      cases d <;> simpa [geoCallbacks, onGeoCallback] using h
  have hlast : geoCallbacks st (cs ++ [c]) = onGeoCallback (geoCallbacks st cs) c := by
    simp [geoCallbacks, List.foldl_append]
  have hk := hkeep cs st
  rw [hlast]
  cases c <;> simp [onGeoCallback, hk.1, hk.2]

/-! ## The polling effect -/

/-- After `stop`, as long as the effect is not started again, the interval stays
disarmed and no event adds an outstanding fetch. -/
theorem pollRun_disarmed (es : List PollEvent) (p : Poller)
    (harmed : p.timerArmed = false) (hes : ∀ e ∈ es, e ≠ PollEvent.start) :
    (pollRun p es).timerArmed = false ∧ (pollRun p es).inFlight ≤ p.inFlight := by
  induction es generalizing p with
  | nil => exact ⟨harmed, le_refl _⟩
  | cons e rest ih =>
    have hrest : ∀ e ∈ rest, e ≠ PollEvent.start := fun x hx => hes x (List.mem_cons_of_mem _ hx)
    have hstep : (pollStep p e).timerArmed = false ∧ (pollStep p e).inFlight ≤ p.inFlight := by
      cases e with
      | start => exact absurd rfl (hes _ (List.mem_cons_self _ _))
      | tick => simp [pollStep, harmed]
      | resolve r =>
        unfold pollStep
        cases hfl : p.inFlight with
        | zero => simp [harmed, hfl]
        | succ n => simp [harmed]
      | stop => simp [pollStep]
    have h := ih (pollStep p e) hstep.1 hrest
    exact ⟨by simpa [pollRun] using h.1, le_trans (by simpa [pollRun] using h.2) hstep.2⟩

/-- C8 fails on the code: the effect starts a fetch, the cleanup runs while it
is outstanding, and when the fetch then resolves successfully its body
replaces `buses`. -/
theorem pollRun_write_after_stop :
    (pollRun (Poller.init AppState.init) [.start, .stop]).inFlight = 1 ∧
      (pollRun (Poller.init AppState.init) [.start, .stop]).app.buses = [] ∧
      (pollRun (Poller.init AppState.init)
        [.start, .stop, .resolve (okResponse [entityM20])]).app.buses = [busM20] :=
  ⟨rfl, rfl, rfl⟩

/-- C8 as amended: `stop` cancels the interval and nothing else. After it no
timer tick starts a fetch (the interval stays disarmed and the number of
outstanding fetches does not grow, over any run of ticks, resolutions and
stops), while a fetch that was outstanding at `stop` and resolves successfully
still replaces `buses` by its parsed body. -/
theorem pollStep_stop (p : Poller) (es : List PollEvent) (r : FetchResult) (bs : List Bus)
    (hout : 0 < p.inFlight) (hok : tryBlock r = .ok bs)
    (hes : ∀ e ∈ es, e ≠ PollEvent.start) :
    (pollStep p .stop).app = p.app ∧
      pollStep (pollStep p .stop) .tick = pollStep p .stop ∧
      (pollRun (pollStep p .stop) es).timerArmed = false ∧
      (pollRun (pollStep p .stop) es).inFlight ≤ p.inFlight ∧
      (pollStep (pollStep p .stop) (.resolve r)).app =
        { buses := bs, error := p.app.error, userLocation := p.app.userLocation } := by
  have hrun := pollRun_disarmed es (pollStep p .stop) rfl hes
  refine ⟨rfl, by simp [pollStep], hrun.1, hrun.2, ?_⟩
  obtain ⟨n, hn⟩ : ∃ n, p.inFlight = n + 1 := ⟨p.inFlight - 1, by omega⟩
  simp [pollStep, hn, fetchBusData, hok]

/-- C8 as amended, at the run start, stop, tick, resolve. -/
theorem pollStep_stop_witness :
    (pollStep (pollStep (Poller.init AppState.init) .start) .stop).app = AppState.init ∧
      pollStep (pollStep (pollStep (Poller.init AppState.init) .start) .stop) .tick =
        pollStep (pollStep (Poller.init AppState.init) .start) .stop ∧
      (pollRun (pollStep (pollStep (Poller.init AppState.init) .start) .stop)
        [.tick, .tick]).timerArmed = false ∧
      (pollRun (pollStep (pollStep (Poller.init AppState.init) .start) .stop)
        [.tick, .tick]).inFlight ≤ 1 ∧
      (pollStep (pollStep (pollStep (Poller.init AppState.init) .start) .stop)
        (.resolve (okResponse [entityM20]))).app =
        { buses := [busM20], error := none, userLocation := none } :=
  pollStep_stop (pollStep (Poller.init AppState.init) .start) [.tick, .tick]
    (okResponse [entityM20]) [busM20] (by decide) rfl (by simp)

/-! ## The route colour -/

/-- `toInt32` lands in the 32-bit signed range. -/
theorem toInt32_range (x : Int) : -2147483648 ≤ toInt32 x ∧ toInt32 x < 2147483648 := by
  simp only [toInt32]
  split_ifs <;> omega

/-- `toInt32` is the identity exactly on the 32-bit signed range. -/
theorem toInt32_eq_self_iff (x : Int) :
    toInt32 x = x ↔ -2147483648 ≤ x ∧ x < 2147483648 := by
  simp only [toInt32]
  split_ifs <;> omega

/-- The halvings of `log2Fuel` bracket `n` between two powers of `2`. -/
theorem log2Fuel_spec (fuel n : Nat) (hn : 0 < n) (hf : n ≤ fuel) :
    2 ^ log2Fuel fuel n ≤ n ∧ n < 2 ^ (log2Fuel fuel n + 1) := by
  induction fuel generalizing n with
  | zero => omega
  | succ k ih =>
    simp only [log2Fuel]
    split_ifs with h
    · constructor <;> simp <;> omega
    · have := ih (n / 2) (by omega) (by omega)
      rw [pow_succ, pow_succ]
      constructor <;> omega

/-- An integer of magnitude at most `2 ^ 53` is a double. -/
theorem roundToDouble_of_le (x : Int) (hlo : -9007199254740992 ≤ x)
    (hhi : x ≤ 9007199254740992) : roundToDouble x = x := by
  simp only [roundToDouble]
  rw [if_pos (by omega)]

/-- Past `2 ^ 53` the loop body rounds. From the hash `2 ^ 54` and the code unit
`1` the exact result `1 - 2 ^ 54` is not a double; the step stores `-2 ^ 54`,
which is not congruent modulo `2 ^ 32` to the step of the reference
algorithm. -/
theorem hashStep_rounds :
    hashStep 18014398509481984 1 = -18014398509481984 ∧
      toInt32 (hashStep 18014398509481984 1) = 0 ∧
      wrapStep (toInt32 18014398509481984) 1 = 1 := by
  decide

/-- The loop body in exact arithmetic, followed by `toInt32`, is one step of the
reference algorithm on the reduced hash. -/
theorem toInt32_exactStep (h : Int) (c : Nat) :
    toInt32 ((c : Int) + (shiftLeft h 5 - h)) = wrapStep (toInt32 h) c := by
  simp only [wrapStep, shiftLeft, toInt32]
  norm_num
  split_ifs <;> omega

/-- While the hash is at most `M` in magnitude and `M + 2 ^ 31 + 65535` does not
exceed `2 ^ 53`, the loop body rounds nothing, and the new hash is at most
`M + 2 ^ 31 + 65535` in magnitude. -/
theorem hashStep_of_le (h : Int) (c : Nat) (M : Int) (hc : c < 65536)
    (hlo : -M ≤ h) (hhi : h ≤ M) (hB : M + 2147549183 ≤ 9007199254740992) :
    hashStep h c = (c : Int) + (shiftLeft h 5 - h) ∧
      -(M + 2147549183) ≤ hashStep h c ∧ hashStep h c ≤ M + 2147549183 := by
  have hr := toInt32_range (toInt32 h * 2 ^ (5 % 32))
  have hs : shiftLeft h 5 = toInt32 (toInt32 h * 2 ^ (5 % 32)) := rfl
  have h1 : roundToDouble (shiftLeft h 5 - h) = shiftLeft h 5 - h :=
    roundToDouble_of_le _ (by omega) (by omega)
  have h2 : roundToDouble ((c : Int) + (shiftLeft h 5 - h)) =
      (c : Int) + (shiftLeft h 5 - h) :=
    roundToDouble_of_le _ (by omega) (by omega)
  have heq : hashStep h c = (c : Int) + (shiftLeft h 5 - h) := by
    simp only [hashStep]
    rw [h1, h2]
  rw [heq]
  refine ⟨rfl, ?_, ?_⟩ <;> omega

/-- As long as the bound of `hashStep_of_le` holds to the end of the input, the
loop and the reference algorithm stay congruent, from any start. -/
theorem foldl_hashStep_of_le (codes : List Nat) (h M : Int)
    (hcodes : ∀ c ∈ codes, c < 65536) (hlo : -M ≤ h) (hhi : h ≤ M)
    (hB : M + (codes.length : Int) * 2147549183 ≤ 9007199254740992) :
    toInt32 (codes.foldl hashStep h) = codes.foldl wrapStep (toInt32 h) ∧
      -(M + (codes.length : Int) * 2147549183) ≤ codes.foldl hashStep h ∧
      codes.foldl hashStep h ≤ M + (codes.length : Int) * 2147549183 := by
  induction codes generalizing h M with
  | nil => simpa using ⟨hlo, hhi⟩
  | cons c rest ih =>
    simp only [List.length_cons, Nat.cast_add, Nat.cast_one] at hB
    have hc := hcodes c (List.mem_cons_self _ _)
    obtain ⟨heq, hl, hu⟩ := hashStep_of_le h c M hc hlo hhi (by omega)
    have hrest := ih (hashStep h c) (M + 2147549183)
      (fun x hx => hcodes x (List.mem_cons_of_mem _ hx)) hl hu (by omega)
    simp only [List.foldl_cons, List.length_cons, Nat.cast_add, Nat.cast_one]
    refine ⟨?_, ?_, ?_⟩
    · rw [hrest.1, heq, toInt32_exactStep]
    · have := hrest.2.1; omega
    · have := hrest.2.2; omega

/-- The reference hash lies in the 32-bit signed range. -/
theorem wrapHash_range (codes : List Nat) :
    -2147483648 ≤ wrapHash codes ∧ wrapHash codes < 2147483648 := by
  have key : ∀ (l : List Nat) (w : Int), (-2147483648 ≤ w ∧ w < 2147483648) →
      -2147483648 ≤ l.foldl wrapStep w ∧ l.foldl wrapStep w < 2147483648 := by
    intro l
    induction l with
    | nil => intro w hw; exact hw
    | cons c rest ih =>
      intro w _
      simp only [List.foldl_cons]
      exact ih (wrapStep w c) (toInt32_range _)
  exact key codes 0 (by norm_num)

/-- For a route id of at most `4194176` code units the magnitude of the hash is
linear in the length and stays within `2 ^ 53`: no step of the loop rounds. -/
theorem hashLoop_abs_le (codes : List Nat) (hcodes : ∀ c ∈ codes, c < 65536)
    (hlen : codes.length ≤ 4194176) :
    |hashLoop codes| ≤ (codes.length : Int) * 2147549183 ∧
      |hashLoop codes| ≤ 9007199254740992 := by
  have h := foldl_hashStep_of_le codes 0 0 hcodes (by norm_num) (by norm_num) (by omega)
  have h1 : |hashLoop codes| ≤ (codes.length : Int) * 2147549183 := by
    rw [abs_le]
    unfold hashLoop
    constructor <;> omega
  exact ⟨h1, by omega⟩

/-- Every code unit `charCodeAt` reads is below `2 ^ 16`. -/
theorem charCodes_lt (s : String) : ∀ x ∈ charCodes s, x < 65536 := by
  intro x hx
  simp only [charCodes, List.mem_flatMap] at hx
  obtain ⟨c, _, hc⟩ := hx
  have hv : c.toNat < 1114112 := by
    have hvalid := c.valid
    simp only [Char.toNat]
    rcases hvalid with h | h
    · have h1 : c.val.toNat < 55296 := h
      omega
    · have h1 : c.val.toNat < 1114112 := h.2
      omega
  split_ifs at hc with h
  · simp only [List.mem_singleton] at hc
    omega
  · simp only [List.mem_cons, List.mem_singleton, List.not_mem_nil, or_false] at hc
    rcases hc with h1 | h1 <;> omega

/-- The remainder `a % 360` of JavaScript in terms of the nonnegative remainder. -/
theorem jsRem_eq (a : Int) :
    jsRem a 360 = if 0 ≤ a then a % 360 else -((-a) % 360) := by
  cases a with
  | ofNat n =>
    have h : jsRem (Int.ofNat n) 360 = ((n % 360 : Nat) : Int) := rfl
    rw [h]
    simp
  | negSucc n =>
    have h : jsRem (Int.negSucc n) 360 = -(((n + 1) % 360 : Nat) : Int) := rfl
    rw [h]
    have hneg : ¬ (0 : Int) ≤ Int.negSucc n := by simp [Int.negSucc_lt_zero]
    rw [if_neg hneg]
    have : -(Int.negSucc n) = ((n + 1 : Nat) : Int) := rfl
    rw [this]
    simp

/-- C3 fails on the code: for the route id `2436_B1` the hash is negative and the
printed hue is `-239`. -/
theorem getColorForRoute_negative_hue :
    hashLoop (charCodes "2436_B1") = -1331938679 ∧
      getColorForRoute "2436_B1" = "hsl(-239, 100%, 50%)" ∧
      ¬ (0 ≤ hueOf "2436_B1" ∧ hueOf "2436_B1" < 360) := by
  refine ⟨rfl, rfl, ?_⟩
  rw [show hueOf "2436_B1" = -239 from rfl]
  decide

/-- C3 as amended: for every route id `getColorForRoute` returns the token
`hsl(h, 100%, 50%)` where the printed hue `h = hash % 360` is an integer with
`-360 < h < 360`; it is negative exactly when the hash is negative and not a
multiple of 360. -/
theorem getColorForRoute_hue_bounds (routeId : String) :
    getColorForRoute routeId = "hsl(" ++ toString (hueOf routeId) ++ ", 100%, 50%)" ∧
      -360 < hueOf routeId ∧ hueOf routeId < 360 ∧
      (hueOf routeId < 0 ↔
        hashLoop (charCodes routeId) < 0 ∧ hashLoop (charCodes routeId) % 360 ≠ 0) := by
  have h := jsRem_eq (hashLoop (charCodes routeId))
  refine ⟨rfl, ?_, ?_, ?_⟩ <;> unfold hueOf <;> rw [h] <;> split_ifs <;> omega

/-- C4 fails on the code: for the route id `2504_370` the loop ends with
`2459328916`, outside the 32-bit signed range, while the wraparound hash is
`-1835638380`; the hues differ (`76` against `-180`). -/
theorem hashLoop_ne_wrapHash :
    hashLoop (charCodes "2504_370") = 2459328916 ∧
      wrapHash (charCodes "2504_370") = -1835638380 ∧
      ¬ (hashLoop (charCodes "2504_370") < 2147483648) ∧
      jsRem (hashLoop (charCodes "2504_370")) 360 = 76 ∧
      jsRem (wrapHash (charCodes "2504_370")) 360 = -180 := by
  refine ⟨rfl, rfl, ?_, rfl, rfl⟩
  rw [show hashLoop (charCodes "2504_370") = 2459328916 from rfl]
  decide

/-- C4 as amended: for every route id of at most `4194176` code units, the hash
the loop ends with is congruent modulo `2 ^ 32` to the 32-bit wraparound hash
`W_n` (reducing it by `toInt32` gives `W_n`, which lies in
`[-2 ^ 31, 2 ^ 31)`), and it equals `W_n` exactly when it lies in that range
itself. -/
theorem toInt32_hashLoop (codes : List Nat) (hcodes : ∀ c ∈ codes, c < 65536)
    (hlen : codes.length ≤ 4194176) :
    toInt32 (hashLoop codes) = wrapHash codes ∧
      (hashLoop codes - wrapHash codes) % 4294967296 = 0 ∧
      -2147483648 ≤ wrapHash codes ∧ wrapHash codes < 2147483648 ∧
      (hashLoop codes = wrapHash codes ↔
        -2147483648 ≤ hashLoop codes ∧ hashLoop codes < 2147483648) := by
  have h : toInt32 (hashLoop codes) = wrapHash codes := by
    have h1 := (foldl_hashStep_of_le codes 0 0 hcodes (by norm_num) (by norm_num)
      (by omega)).1
    have h0 : toInt32 0 = 0 := rfl
    rw [h0] at h1
    exact h1
  have hr := wrapHash_range codes
  have hiff := toInt32_eq_self_iff (hashLoop codes)
  refine ⟨h, ?_, hr.1, hr.2, ?_⟩
  · rw [← h]
    simp only [toInt32]
    split_ifs <;> omega
  · rw [← h]
    constructor
    · intro heq
      exact hiff.mp heq.symm
    · intro hrange
      exact (hiff.mpr hrange).symm

/-- C4 as amended, at the route id `2504_370`: the loop ends with `2459328916`,
whose reduction by `toInt32` is the wraparound hash `-1835638380`. -/
theorem toInt32_hashLoop_witness :
    toInt32 (hashLoop (charCodes "2504_370")) = wrapHash (charCodes "2504_370") ∧
      (hashLoop (charCodes "2504_370") - wrapHash (charCodes "2504_370")) % 4294967296 = 0 ∧
      -2147483648 ≤ wrapHash (charCodes "2504_370") ∧
      wrapHash (charCodes "2504_370") < 2147483648 ∧
      (hashLoop (charCodes "2504_370") = wrapHash (charCodes "2504_370") ↔
        -2147483648 ≤ hashLoop (charCodes "2504_370") ∧
          hashLoop (charCodes "2504_370") < 2147483648) :=
  toInt32_hashLoop (charCodes "2504_370") (charCodes_lt "2504_370") (by decide)

/-! ## Distance and render -/


/-- The intermediate value `a` is symmetric in the two points. -/
theorem haversineA_symm (lat1 lon1 lat2 lon2 : ℝ) :
    haversineA lat1 lon1 lat2 lon2 = haversineA lat2 lon2 lat1 lon1 := by
  simp only [haversineA]
  have h1 : (lat1 - lat2) * Real.pi / 180 / 2 = -((lat2 - lat1) * Real.pi / 180 / 2) := by ring
  have h2 : (lon1 - lon2) * Real.pi / 180 / 2 = -((lon2 - lon1) * Real.pi / 180 / 2) := by ring
  rw [h1, h2, Real.sin_neg, Real.sin_neg]
  ring

/-- The intermediate value `a` of a point against itself is `0`. -/
theorem haversineA_self (lat lon : ℝ) : haversineA lat lon lat lon = 0 := by
  simp [haversineA]

/-- The cosine of a latitude in degrees is nonnegative. -/
theorem cos_deg_nonneg (lat : ℝ) (hlo : -90 ≤ lat) (hhi : lat ≤ 90) :
    0 ≤ Real.cos (lat * Real.pi / 180) := by
  apply Real.cos_nonneg_of_neg_pi_div_two_le_of_le
  · have := Real.pi_pos
    nlinarith
  · have := Real.pi_pos
    nlinarith

/-- For valid latitudes the operand of the first `Math.sqrt` is nonnegative. -/
theorem haversineA_nonneg (lat1 lon1 lat2 lon2 : ℝ)
    (h1 : -90 ≤ lat1 ∧ lat1 ≤ 90) (h2 : -90 ≤ lat2 ∧ lat2 ≤ 90) :
    0 ≤ haversineA lat1 lon1 lat2 lon2 := by
  simp only [haversineA]
  have hc1 := cos_deg_nonneg lat1 h1.1 h1.2
  have hc2 := cos_deg_nonneg lat2 h2.1 h2.2
  have hs1 := mul_self_nonneg (Real.sin ((lat2 - lat1) * Real.pi / 180 / 2))
  have hs2 := mul_self_nonneg (Real.sin ((lon2 - lon1) * Real.pi / 180 / 2))
  have hp := mul_nonneg (mul_nonneg hc1 hc2) hs2
  nlinarith

/-- For valid latitudes the operand `1 - a` of the second `Math.sqrt` is
nonnegative. -/
theorem haversineA_le_one (lat1 lon1 lat2 lon2 : ℝ)
    (h1 : -90 ≤ lat1 ∧ lat1 ≤ 90) (h2 : -90 ≤ lat2 ∧ lat2 ≤ 90) :
    haversineA lat1 lon1 lat2 lon2 ≤ 1 := by
  simp only [haversineA]
  have hc1 := cos_deg_nonneg lat1 h1.1 h1.2
  have hc2 := cos_deg_nonneg lat2 h2.1 h2.2
  set p := lat1 * Real.pi / 180 with hp
  set q := lat2 * Real.pi / 180 with hq
  have hd : (lat2 - lat1) * Real.pi / 180 / 2 = (q - p) / 2 := by rw [hp, hq]; ring
  rw [hd]
  set s := Real.sin ((lon2 - lon1) * Real.pi / 180 / 2) with hs
  have hs1 : s * s ≤ 1 := by
    have := Real.sin_sq_le_one ((lon2 - lon1) * Real.pi / 180 / 2)
    nlinarith
  have hs0 : 0 ≤ s * s := mul_self_nonneg s
  -- sin((q-p)/2)^2 = (1 - cos (q-p))/2
  have hhalf : Real.sin ((q - p) / 2) * Real.sin ((q - p) / 2) = (1 - Real.cos (q - p)) / 2 := by
    have h2 : Real.cos (q - p) = Real.cos (2 * ((q - p) / 2)) := by ring_nf
    have h3 := Real.sin_sq_add_cos_sq ((q - p) / 2)
    rw [h2, Real.cos_two_mul]
    nlinarith
  rw [hhalf, Real.cos_sub]
  have hsum : Real.cos (p + q) ≤ 1 := Real.cos_le_one _
  rw [Real.cos_add] at hsum
  have hcc := mul_nonneg hc1 hc2
  nlinarith

/-- `Math.atan2(y, x)` is nonnegative when `y` is. -/
theorem atan2_nonneg (y x : ℝ) (hy : 0 ≤ y) : 0 ≤ atan2 y x := by
  unfold atan2
  rw [Complex.arg_nonneg_iff]
  exact hy

/-- `Math.atan2(0, 1) = 0`. -/
theorem atan2_zero_one : atan2 0 1 = 0 := by
  unfold atan2
  have : (⟨1, 0⟩ : ℂ) = 1 := rfl
  rw [this, Complex.arg_one]

/-- The angle `θ = atan2(√a, √(1 - a))` has `sin θ = √a` and `cos θ = √(1 - a)`,
hence `√a ≤ θ` and `θ * √(1 - a) ≤ √a`. -/
theorem atan2_sqrt_bounds (a : ℝ) (h0 : 0 ≤ a) (h1 : a < 1) :
    Real.sqrt a ≤ atan2 (Real.sqrt a) (Real.sqrt (1 - a)) ∧
      atan2 (Real.sqrt a) (Real.sqrt (1 - a)) * Real.sqrt (1 - a) ≤ Real.sqrt a := by
  have hpos : 0 < Real.sqrt (1 - a) := Real.sqrt_pos.mpr (by linarith)
  set z : ℂ := ⟨Real.sqrt (1 - a), Real.sqrt a⟩ with hz
  have habs : Complex.abs z = 1 := by
    rw [Complex.abs_apply, Complex.normSq_apply]
    simp only [hz]
    rw [Real.mul_self_sqrt (by linarith), Real.mul_self_sqrt h0]
    simp
  have hne : z ≠ 0 := by
    intro h
    rw [h] at habs
    simp at habs
  have hsin : Real.sin z.arg = Real.sqrt a := by
    rw [Complex.sin_arg, habs]; simp [hz]
  have hcos : Real.cos z.arg = Real.sqrt (1 - a) := by
    rw [Complex.cos_arg hne, habs]; simp [hz]
  have hnn : 0 ≤ z.arg := by
    rw [Complex.arg_nonneg_iff]; exact Real.sqrt_nonneg _
  have hlt : z.arg < Real.pi / 2 := by
    by_contra hge
    push_neg at hge
    have hle : z.arg ≤ Real.pi + Real.pi / 2 := by
      have := Complex.arg_le_pi z
      have := Real.pi_pos
      linarith
    have := Real.cos_nonpos_of_pi_div_two_le_of_le hge hle
    linarith
  unfold atan2
  refine ⟨?_, ?_⟩
  · have hle := Real.sin_le hnn
    rw [hsin] at hle
    exact hle
  · have htan := Real.le_tan hnn hlt
    rw [Real.tan_eq_sin_div_cos, hsin, hcos] at htan
    rw [le_div_iff₀ hpos] at htan
    exact htan

/-- The distance from a point to itself is `0`. -/
theorem getDistance_self (lat lon : ℝ) : getDistanceFromLatLonInKm lat lon lat lon = 0 := by
  simp [getDistanceFromLatLonInKm, haversineA_self, atan2_zero_one]


/-- Bounds on the distance from bounds on the intermediate value `a`. -/
theorem getDistance_between (lat1 lon1 lat2 lon2 L U : ℝ) (hL : 0 ≤ L) (hU : 0 < U)
    (hlo : (L / 12742) ^ 2 ≤ haversineA lat1 lon1 lat2 lon2)
    (hlt : haversineA lat1 lon1 lat2 lon2 < 1)
    (hhi : haversineA lat1 lon1 lat2 lon2 <
      (U / 12742) ^ 2 * (1 - haversineA lat1 lon1 lat2 lon2)) :
    L ≤ getDistanceFromLatLonInKm lat1 lon1 lat2 lon2 ∧
      getDistanceFromLatLonInKm lat1 lon1 lat2 lon2 < U := by
  simp only [getDistanceFromLatLonInKm]
  set a := haversineA lat1 lon1 lat2 lon2 with ha
  have h0 : 0 ≤ a := le_trans (sq_nonneg _) hlo
  obtain ⟨hge, hle⟩ := atan2_sqrt_bounds a h0 hlt
  set θ := atan2 (Real.sqrt a) (Real.sqrt (1 - a)) with hθ
  have hsq : L / 12742 ≤ Real.sqrt a := by
    rw [Real.le_sqrt (by positivity) h0]
    exact hlo
  constructor
  · have : L / 12742 ≤ θ := le_trans hsq hge
    linarith
  · by_contra hcon
    push_neg at hcon
    have hT : U / 12742 ≤ θ := by linarith
    have hs1 : 0 ≤ Real.sqrt (1 - a) := Real.sqrt_nonneg _
    have hchain : U / 12742 * Real.sqrt (1 - a) ≤ Real.sqrt a :=
      le_trans (mul_le_mul_of_nonneg_right hT hs1) hle
    have hnn : 0 ≤ U / 12742 * Real.sqrt (1 - a) := by positivity
    have hsquare := mul_self_le_mul_self hnn hchain
    rw [Real.mul_self_sqrt h0] at hsquare
    have hexp : U / 12742 * Real.sqrt (1 - a) * (U / 12742 * Real.sqrt (1 - a)) =
        (U / 12742) ^ 2 * (1 - a) := by
      have := Real.mul_self_sqrt (show 0 ≤ 1 - a by linarith)
      calc U / 12742 * Real.sqrt (1 - a) * (U / 12742 * Real.sqrt (1 - a))
          = (U / 12742) ^ 2 * (Real.sqrt (1 - a) * Real.sqrt (1 - a)) := by ring
        _ = (U / 12742) ^ 2 * (1 - a) := by rw [this]
    rw [hexp] at hsquare
    linarith

/-- Rational bounds on the sine of a small positive angle. -/
theorem sin_small_bounds (x lo hi : ℝ) (hlo : 0 < lo) (hx : lo * (1 + 1 / 1000000) ≤ x)
    (hhi : x ≤ hi) (hsmall : hi ≤ 1 / 1000) :
    lo ≤ Real.sin x ∧ Real.sin x ≤ hi ∧ 0 ≤ Real.sin x := by
  have hx0 : 0 < x := by nlinarith
  have h1 := Real.sin_gt_sub_cube hx0 (by linarith)
  have h2 := Real.sin_le hx0.le
  have hx2 : x ^ 2 ≤ 1 / 1000000 := by nlinarith
  have hx3 : x ^ 3 ≤ x * (1 / 1000000) := by
    have : x ^ 3 = x * x ^ 2 := by ring
    rw [this]
    exact mul_le_mul_of_nonneg_left hx2 hx0.le
  have hlow : lo ≤ Real.sin x := by nlinarith
  exact ⟨hlow, by linarith, by linarith⟩

/-- The intermediate value `a` between the viewer `(-33.8688, 151.2093)` and the
bus at `(-33.87, 151.21)` is about `1.354e-10`. -/
theorem scenario_haversineA_bounds :
    (0.145 / 12742 : ℝ) ^ 2 ≤ haversineA (-33.8688) 151.2093 (-33.87) 151.21 ∧
      haversineA (-33.8688) 151.2093 (-33.87) 151.21 ≤ 1.47e-10 := by
  have hpl := Real.pi_gt_d6
  have hpu := Real.pi_lt_d6
  simp only [haversineA]
  have hu : ((-33.87 : ℝ) - -33.8688) * Real.pi / 180 / 2 = -(Real.pi / 300000) := by
    norm_num; ring
  have hv : ((151.21 : ℝ) - 151.2093) * Real.pi / 180 / 2 = 7 * Real.pi / 3600000 := by
    norm_num; ring
  rw [hu, hv, Real.sin_neg]
  obtain ⟨hsl, hsu, hs0⟩ := sin_small_bounds (Real.pi / 300000) (1.0471e-5) (1.0472e-5)
    (by norm_num) (by norm_num; linarith) (by linarith) (by norm_num)
  obtain ⟨htl, htu, ht0⟩ := sin_small_bounds (7 * Real.pi / 3600000) (6.108e-6) (6.109e-6)
    (by norm_num) (by norm_num; linarith) (by linarith) (by norm_num)
  set s := Real.sin (Real.pi / 300000) with hs
  set t := Real.sin (7 * Real.pi / 3600000) with ht
  have hc1 : (0.82 : ℝ) ≤ Real.cos (-33.8688 * Real.pi / 180) := by
    have h := @Real.one_sub_sq_div_two_le_cos (-33.8688 * Real.pi / 180)
    have hx : (-33.8688 * Real.pi / 180) ^ 2 ≤ 0.36 := by nlinarith
    linarith
  have hc2 : (0.82 : ℝ) ≤ Real.cos (-33.87 * Real.pi / 180) := by
    have h := @Real.one_sub_sq_div_two_le_cos (-33.87 * Real.pi / 180)
    have hx : (-33.87 * Real.pi / 180) ^ 2 ≤ 0.36 := by nlinarith
    linarith
  have hc1u := Real.cos_le_one (-33.8688 * Real.pi / 180)
  have hc2u := Real.cos_le_one (-33.87 * Real.pi / 180)
  set c1 := Real.cos (-33.8688 * Real.pi / 180) with hc1d
  set c2 := Real.cos (-33.87 * Real.pi / 180) with hc2d
  have hss_lo : (1.0471e-5 : ℝ) * 1.0471e-5 ≤ s * s :=
    mul_le_mul hsl hsl (by norm_num) hs0
  have hss_hi : s * s ≤ (1.0472e-5 : ℝ) * 1.0472e-5 :=
    mul_le_mul hsu hsu hs0 (by norm_num)
  have htt_lo : (6.108e-6 : ℝ) * 6.108e-6 ≤ t * t :=
    mul_le_mul htl htl (by norm_num) ht0
  have htt_hi : t * t ≤ (6.109e-6 : ℝ) * 6.109e-6 :=
    mul_le_mul htu htu ht0 (by norm_num)
  have hcc_lo : (0.82 : ℝ) * 0.82 ≤ c1 * c2 :=
    mul_le_mul hc1 hc2 (by norm_num) (by linarith)
  have hcc_hi : c1 * c2 ≤ 1 := by
    have : c1 * c2 ≤ 1 * 1 := mul_le_mul hc1u hc2u (by linarith) (by norm_num)
    linarith
  have hprod_lo : (0.82 : ℝ) * 0.82 * (6.108e-6 * 6.108e-6) ≤ c1 * c2 * (t * t) :=
    mul_le_mul hcc_lo htt_lo (by norm_num) (by linarith)
  have hprod_hi : c1 * c2 * (t * t) ≤ 1 * (6.109e-6 * 6.109e-6) :=
    mul_le_mul hcc_hi htt_hi (mul_self_nonneg t) (by norm_num)
  have hform : -s * -s + c1 * c2 * t * t = s * s + c1 * c2 * (t * t) := by ring
  rw [hform]
  constructor
  · norm_num at hss_lo hprod_lo ⊢
    linarith
  · norm_num at hss_hi hprod_hi ⊢
    linarith

/-- The distance between the viewer `(-33.8688, 151.2093)` and the bus at
`(-33.87, 151.21)` is about `0.148` km. -/
theorem scenario_distance_bounds :
    0.145 ≤ getDistanceFromLatLonInKm (-33.8688) 151.2093 (-33.87) 151.21 ∧
      getDistanceFromLatLonInKm (-33.8688) 151.2093 (-33.87) 151.21 < 0.155 := by
  obtain ⟨hlo, hhi⟩ := scenario_haversineA_bounds
  apply getDistance_between _ _ _ _ 0.145 0.155 (by norm_num) (by norm_num) hlo
  · linarith
  · have : (0.155 / 12742 : ℝ) ^ 2 * (1 - 1.47e-10) ≤
        (0.155 / 12742 : ℝ) ^ 2 *
          (1 - haversineA (-33.8688) 151.2093 (-33.87) 151.21) := by
      apply mul_le_mul_of_nonneg_left _ (by positivity)
      linarith
    have hnum : (1.47e-10 : ℝ) < (0.155 / 12742 : ℝ) ^ 2 * (1 - 1.47e-10) := by norm_num
    linarith


/-- C6: over the real numbers, for latitudes in `[-90, 90]` and longitudes in
`[-180, 180]`, the distance from a point to itself is `0`, the distance is
symmetric in the two points, and it is nonnegative. On these inputs the
operands `a` and `1 - a` of the two square roots are nonnegative. -/
theorem getDistance_props (lat1 lon1 lat2 lon2 : ℝ)
    (hlat1 : -90 ≤ lat1 ∧ lat1 ≤ 90) (_hlon1 : -180 ≤ lon1 ∧ lon1 ≤ 180)
    (hlat2 : -90 ≤ lat2 ∧ lat2 ≤ 90) (_hlon2 : -180 ≤ lon2 ∧ lon2 ≤ 180) :
    getDistanceFromLatLonInKm lat1 lon1 lat1 lon1 = 0 ∧
      getDistanceFromLatLonInKm lat1 lon1 lat2 lon2 =
        getDistanceFromLatLonInKm lat2 lon2 lat1 lon1 ∧
      0 ≤ getDistanceFromLatLonInKm lat1 lon1 lat2 lon2 ∧
      0 ≤ haversineA lat1 lon1 lat2 lon2 ∧ haversineA lat1 lon1 lat2 lon2 ≤ 1 := by
  refine ⟨getDistance_self lat1 lon1, ?_, ?_, haversineA_nonneg _ _ _ _ hlat1 hlat2,
    haversineA_le_one _ _ _ _ hlat1 hlat2⟩
  · simp only [getDistanceFromLatLonInKm]
    rw [haversineA_symm]
  · simp only [getDistanceFromLatLonInKm]
    have := atan2_nonneg (Real.sqrt (haversineA lat1 lon1 lat2 lon2))
      (Real.sqrt (1 - haversineA lat1 lon1 lat2 lon2)) (Real.sqrt_nonneg _)
    positivity

/-- C6 at the viewer `(-33.8688, 151.2093)` and the point `(-33.87, 151.21)`. -/
theorem getDistance_props_witness :
    getDistanceFromLatLonInKm (-33.8688) 151.2093 (-33.8688) 151.2093 = 0 ∧
      getDistanceFromLatLonInKm (-33.8688) 151.2093 (-33.87) 151.21 =
        getDistanceFromLatLonInKm (-33.87) 151.21 (-33.8688) 151.2093 ∧
      0 ≤ getDistanceFromLatLonInKm (-33.8688) 151.2093 (-33.87) 151.21 ∧
      0 ≤ haversineA (-33.8688) 151.2093 (-33.87) 151.21 ∧
      haversineA (-33.8688) 151.2093 (-33.87) 151.21 ≤ 1 :=
  getDistance_props (-33.8688) 151.2093 (-33.87) 151.21
    (by norm_num) (by norm_num) (by norm_num) (by norm_num)

/-- The render pass on the scenario: one entry, nearby, coloured `hsl(355, 100%, 50%)`. -/
theorem scenario_render_values :
    (renderBuses (some (-33.8688, 151.2093)) [obsM20]).map
        (fun e => (e.distance, e.isNearby, e.color)) =
      [(((getDistanceFromLatLonInKm (-33.8688) 151.2093 (-33.87) 151.21 : ℝ) : EReal), true,
        "hsl(355, 100%, 50%)")] := by
  have hb := scenario_distance_bounds
  have hcolor : getColorForRoute "M20" = "hsl(355, 100%, 50%)" := rfl
  simp only [renderBuses, annotate, obsM20, List.map_cons, List.map_nil, hcolor]
  norm_num
  linarith [hb.2]

/-- C9 fails on the code: in the scenario the one annotated vehicle has a
distance outside `[0.025, 0.035)`, so it does not round to `0.03`. -/
theorem scenario_not_003 :
    tryBlock (okResponse [entityM20]) = .ok [busM20] ∧
      busM20.observation? = some obsM20 ∧
      (renderBuses (some (-33.8688, 151.2093)) [obsM20]).map (fun e => e.distance) =
        [((getDistanceFromLatLonInKm (-33.8688) 151.2093 (-33.87) 151.21 : ℝ) : EReal)] ∧
      ¬ (0.025 ≤ getDistanceFromLatLonInKm (-33.8688) 151.2093 (-33.87) 151.21 ∧
          getDistanceFromLatLonInKm (-33.8688) 151.2093 (-33.87) 151.21 < 0.035) := by
  have hb := scenario_distance_bounds
  have hv := scenario_render_values
  refine ⟨rfl, rfl, ?_, ?_⟩
  · have := congrArg (List.map fun (x : EReal × Bool × String) => x.1) hv
    simpa [Function.comp_def] using this
  · intro h
    linarith [hb.1, h.2]

/-- C9 as amended: parsing the scenario body gives one bus, and the render pass
for the viewer at `(-33.8688, 151.2093)` gives exactly one annotated vehicle,
whose distance lies in `[0.145, 0.155)` (it rounds to `0.15` km at two
decimals) and whose `isNearby` flag is true. -/
theorem scenario_render :
    tryBlock (okResponse [entityM20]) = .ok [busM20] ∧
      busM20.observation? = some obsM20 ∧
      ∃ d : ℝ,
        (renderBuses (some (-33.8688, 151.2093)) [obsM20]).map
            (fun e => (e.distance, e.isNearby, e.color)) =
          [((d : EReal), true, "hsl(355, 100%, 50%)")] ∧
        d = getDistanceFromLatLonInKm (-33.8688) 151.2093 (-33.87) 151.21 ∧
        0.145 ≤ d ∧ d < 0.155 :=
  ⟨rfl, rfl, _, scenario_render_values, rfl, scenario_distance_bounds.1,
    scenario_distance_bounds.2⟩


/-! ## The render pass on the buses as stored -/

/-- `Infinity <= 5` is false. -/
theorem JsNum.le_infinity_five : JsNum.le .infinity (.finite 5) = false := rfl

/-- On a bus with numeric coordinates and a string route id the callback of the
render pass raises nothing, and computes what App.js:119-124 says. -/
theorem renderBus_typed (engine : Engine) (userLocation : Option (ℚ × ℚ)) (bus : Bus)
    (routeId : String) (x y : ℚ) (hr : bus.routeId = .str routeId)
    (hx : bus.latitude = .num x) (hy : bus.longitude = .num y) :
    ∃ m : BusMarker, renderBus engine userLocation bus = .ok m ∧ m.bus = bus ∧
      (match userLocation with
        | some loc =>
          callDistance engine loc.1 loc.2 bus.latitude bus.longitude = .ok m.distance
        | none => m.distance = .infinity) ∧
      m.color = getColorForRoute routeId ∧
      m.isNearby = JsNum.le m.distance (.finite 5) := by
  cases userLocation with
  | none =>
    exact ⟨{ bus := bus, distance := .infinity, isNearby := JsNum.le .infinity (.finite 5),
             color := getColorForRoute routeId },
      by simp only [renderBus, getColorForRouteVal, hr]; rfl, rfl, rfl, rfl, rfl⟩
  | some loc =>
    exact ⟨{ bus := bus,
             distance := engine.distance (.finite loc.1) (.finite loc.2) (.finite x) (.finite y),
             isNearby := JsNum.le
               (engine.distance (.finite loc.1) (.finite loc.2) (.finite x) (.finite y))
               (.finite 5),
             color := getColorForRoute routeId },
      by simp only [renderBus, callDistance, toNumber, getColorForRouteVal, hr, hx, hy]; rfl,
      rfl, by simp only [callDistance, toNumber, hx, hy]; rfl, rfl, rfl⟩

/-- C5 fails on the code: the parse step stores the bus of `entityNoRouteId` with
`routeId` `undefined`, and on it the render pass, whatever the engine and with
or without a viewer, raises the `TypeError` of `routeId.length` and yields no
entry. -/
theorem renderPass_undefined_routeId :
    parsedBuses [entityNoRouteId] = .ok [busNoRouteId] ∧
      (fun engine => renderPass engine none [busNoRouteId]) =
        (fun _ => .error "Cannot read properties of undefined (reading 'length')") ∧
      (fun engine => renderPass engine (some sydneyPosition) [busM20, busNoRouteId]) =
        (fun _ => .error "Cannot read properties of undefined (reading 'length')") :=
  ⟨rfl, rfl, rfl⟩

/-- C5 as amended: for every bus list whose buses have numeric coordinates and a
string route id, and every viewer position, the render pass raises nothing and
yields one entry per bus, in the order of `buses`. The distance of an entry is
the number `getDistanceFromLatLonInKm` computes from the viewer and its bus
when the viewer is present and `Infinity` when it is absent, its colour is
`getColorForRoute` of the route id, and its `isNearby` flag is the value of
`distance <= 5`; with no viewer no entry is nearby. -/
theorem renderPass_entries (engine : Engine) (userLocation : Option (ℚ × ℚ))
    (buses : List Bus)
    (htyped : ∀ b ∈ buses, (∃ s, b.routeId = .str s) ∧ (∃ x, b.latitude = .num x) ∧
      ∃ y, b.longitude = .num y) :
    ∃ entries : List BusMarker,
      renderPass engine userLocation buses = .ok entries ∧
      entries.length = buses.length ∧
      entries.map (fun e => e.bus) = buses ∧
      (∀ e ∈ entries,
        (match userLocation with
          | some loc =>
            callDistance engine loc.1 loc.2 e.bus.latitude e.bus.longitude = .ok e.distance
          | none => e.distance = .infinity) ∧
        (∃ s, e.bus.routeId = .str s ∧ e.color = getColorForRoute s) ∧
        e.isNearby = JsNum.le e.distance (.finite 5)) ∧
      (userLocation = none → ∀ e ∈ entries, e.isNearby = false) := by
  induction buses with
  | nil => exact ⟨[], rfl, rfl, rfl, by simp, by simp⟩
  | cons b rest ih =>
    obtain ⟨⟨s, hs⟩, ⟨x, hx⟩, ⟨y, hy⟩⟩ := htyped b (List.mem_cons_self _ _)
    obtain ⟨entries, hok, hlen, hmap, hall, hnone⟩ :=
      ih (fun c hc => htyped c (List.mem_cons_of_mem _ hc))
    obtain ⟨m, hm, hbus, hdist, hcolor, hnear⟩ :=
      renderBus_typed engine userLocation b s x y hs hx hy
    refine ⟨m :: entries, ?_, ?_, ?_, ?_, ?_⟩
    · simp only [renderPass, hm, hok]
      rfl
    · simp [hlen]
    · simp [hmap, hbus]
    · intro e he
      rcases List.mem_cons.mp he with rfl | he
      · rw [hbus]
        exact ⟨hdist, ⟨s, hs, hcolor⟩, hnear⟩
      · exact hall e he
    · intro hu e he
      rcases List.mem_cons.mp he with rfl | he
      · subst hu
        rw [hnear, hdist]
        rfl
      · exact hnone hu e he

/-- C5 as amended, on the bus parsed from the scenario body, for an engine whose
distance function returns `0.148` and a viewer at the Sydney fallback. -/
theorem renderPass_entries_witness :
    ∃ entries : List BusMarker,
      renderPass ⟨fun _ _ _ _ => .finite 0.148, fun _ => .ok .nan⟩ (some sydneyPosition)
          [busM20] = .ok entries ∧
      entries.length = [busM20].length ∧
      entries.map (fun e => e.bus) = [busM20] ∧
      (∀ e ∈ entries,
        (match some sydneyPosition with
          | some loc =>
            callDistance ⟨fun _ _ _ _ => .finite 0.148, fun _ => .ok .nan⟩ loc.1 loc.2
              e.bus.latitude e.bus.longitude = .ok e.distance
          | none => e.distance = .infinity) ∧
        (∃ s, e.bus.routeId = .str s ∧ e.color = getColorForRoute s) ∧
        e.isNearby = JsNum.le e.distance (.finite 5)) ∧
      (some sydneyPosition = none → ∀ e ∈ entries, e.isNearby = false) :=
  renderPass_entries ⟨fun _ _ _ _ => .finite 0.148, fun _ => .ok .nan⟩ (some sydneyPosition)
    [busM20] (by simp [busM20])

end NswTransport
